import Mathlib

/-!
Verification development for the rustic_server repository handlers
(`src/handlers/repository.rs`): `create_repository` and `delete_repository`,
together with the path model, access-policy engine and storage engine they
call.  The handler bodies are embedded directly from the Rust source; the
modules `path_analysis`, `access_check`/`acl`, `storage` and `error` are not
present in the source tree and are modelled from the specification
(`spec.md`), as marked in their doc comments.
-/

namespace RusticServer

/-! ## Error taxonomy

Modelled from the spec: `src/error.rs` is not in the source tree.  The spec
(§7) gives the taxonomy `InvalidPath`, `Unauthenticated`, `Denied`, …, and the
handler source names the variants `CreatingDirectoryFailed` and
`RemovingRepositoryFailed`.  §6 gives the status mapping. -/

/-- Modelled from the spec: the error kinds reachable from the two
repository handlers (`src/error.rs` is missing from the source tree). -/
inductive ErrorKind where
  | InvalidPath : String → ErrorKind
  | Unauthenticated : ErrorKind
  | Denied : ErrorKind
  | CreatingDirectoryFailed : String → ErrorKind
  | RemovingRepositoryFailed : String → ErrorKind
deriving DecidableEq, Repr

/-- Modelled from the spec (§6): HTTP status code for each error kind:
path malformed → 400, authentication missing/invalid → 401, authorization
denied → 403, any underlying I/O failure not otherwise classified → 500. -/
def statusOf : ErrorKind → Nat
  | .InvalidPath _ => 400
  | .Unauthenticated => 401
  | .Denied => 403
  | .CreatingDirectoryFailed _ => 500
  | .RemovingRepositoryFailed _ => 500

/-! ## Path model

Modelled from the spec: `src/handlers/path_analysis.rs` is not in the source
tree.  The spec (§3, §4.1) fixes the `ArchivePath` value type, the object-type
vocabulary `TYPES`, and the decomposition algorithm; the handler source shows
the field names `path`, `tpe`, `path_type` and the enum name
`ArchivePathEnum` with constructor `Repo`. -/

/-- The fixed object-type vocabulary (spec §4.1): `config`, `data`, `keys`,
`locks`, `snapshots`, `index`. -/
def TYPES : List String := ["config", "data", "keys", "locks", "snapshots", "index"]

/-- Modelled from the spec (§3): `Repo` addresses a repository root, `Typ`
(`Type` in the spec, a reserved word here) an object-type collection, `File`
a single named object. -/
inductive ArchivePathEnum where
  | Repo : ArchivePathEnum
  | Typ : ArchivePathEnum
  | File : ArchivePathEnum
deriving DecidableEq, Repr

/-- Modelled from the spec (§3): the validated typed reference produced by
path decomposition.  `path` is the repository path (joined segments), `tpe`
the object-type segment (`""` meaning none, as the handler's
`assert_eq!(&tpe, "")` shows), `id` the optional object identifier. -/
structure ArchivePath where
  path_type : ArchivePathEnum
  path : String
  tpe : String
  id : Option String
deriving DecidableEq, Repr

/-- Split a character list on `/` separators (each `/` starts a new
segment); structural recursion so concrete inputs reduce definitionally. -/
def splitSlash : List Char → List (List Char)
  | [] => [[]]
  | '/' :: rest => [] :: splitSlash rest
  | c :: rest =>
    match splitSlash rest with
    | [] => [[c]]
    | s :: ss => (c :: s) :: ss

/-- Drop a single leading empty segment (from the path's leading `/`). -/
def dropLeadEmpty : List String → List String
  | "" :: rest => rest
  | l => l

/-- Drop a single trailing empty segment (a trailing `/` is tolerated,
spec §8: `decompose("/{repo}/{type}/")` yields kind `Type`). -/
def dropTrailEmpty (l : List String) : List String :=
  (dropLeadEmpty l.reverse).reverse

/-- The raw path split into segments, with the outer empties from a leading
and a trailing slash removed. -/
def pathSegments (s : String) : List String :=
  dropTrailEmpty (dropLeadEmpty ((splitSlash s.data).map (fun cs => String.mk cs)))

/-- Modelled from the spec (§4.1): a rejected segment — empty, `.`, `..`, or
containing a null byte or control character. -/
def badSeg (s : String) : Bool :=
  s == "" || s == "." || s == ".." || s.data.any (fun c => c.toNat < 32)

/-- A hexadecimal digit `0-9a-f`. -/
def isHexDigit (c : Char) : Bool :=
  (48 ≤ c.toNat && c.toNat ≤ 57) || (97 ≤ c.toNat && c.toNat ≤ 102)

/-- Modelled from the spec (§4.1): a valid object id matches
`[0-9a-f]\x7b2,64\x7d`. -/
def validId (s : String) : Bool :=
  2 ≤ s.length && s.length ≤ 64 && s.data.all isHexDigit

/-- Join segments back with `/` (the repository path string the handlers
pass to the storage engine). -/
def joinSegs (l : List String) : String :=
  String.intercalate "/" l

/-- Last segment, or `""`. -/
def lastSeg (l : List String) : String := l.getLastD ""

/-- Second-to-last segment, or `""`. -/
def penultSeg (l : List String) : String := l.dropLast.getLastD ""

/-- Modelled from the spec (§4.1): decomposition of a cleaned segment list.
A trailing segment from the type vocabulary (with a nonempty repository
prefix) gives kind `Typ`; a vocabulary segment followed by one more segment
gives kind `File` whose id must be a hex fragment (never after `config`);
otherwise the whole (multi-level) segment sequence is the repository path,
kind `Repo`. -/
def decompose_core (segs : List String) (raw : String) : Except ErrorKind ArchivePath :=
  if segs.any badSeg then .error (.InvalidPath raw)
  else if segs.isEmpty then .error (.InvalidPath raw)
  else if 2 ≤ segs.length && TYPES.contains (lastSeg segs) then
    .ok { path_type := .Typ, path := joinSegs segs.dropLast, tpe := lastSeg segs, id := none }
  else if 3 ≤ segs.length && TYPES.contains (penultSeg segs) then
    if penultSeg segs == "config" then .error (.InvalidPath raw)
    else if validId (lastSeg segs) then
      .ok { path_type := .File, path := joinSegs segs.dropLast.dropLast,
            tpe := penultSeg segs, id := some (lastSeg segs) }
    else .error (.InvalidPath raw)
  else
    .ok { path_type := .Repo, path := joinSegs segs, tpe := "", id := none }

/-- Modelled from the spec (§4.1): `decompose_path` from
`src/handlers/path_analysis.rs` (missing from the source tree).  Pure and
total: every raw path either decomposes or yields `InvalidPath`. -/
def decompose_path (s : String) : Except ErrorKind ArchivePath :=
  decompose_core (pathSegments s) s

/-! ## Access policy engine

Modelled from the spec: `src/acl.rs` and `src/handlers/access_check.rs` are
not in the source tree.  The spec (§4.2) fixes the rule table, the
resolution order (exact user+repo > wildcard repo > wildcard user > policy
default), the append-only cap with its repository-root exception, and the
grant condition `requested ≤ effective`.  The handler source shows the call
shape `check_auth_and_acl(user, tpe, path, access)` and the enum
`AccessType` with constructors `Append` and `Modify`. -/

/-- Ordered closed set `Read < Append < Modify` (spec §3). -/
inductive AccessType where
  | Read : AccessType
  | Append : AccessType
  | Modify : AccessType
deriving DecidableEq, Repr

/-- Numeric rank realizing the order `Read < Append < Modify`. -/
def AccessType.rank : AccessType → Nat
  | .Read => 0
  | .Append => 1
  | .Modify => 2

/-- The order on access levels as a Boolean test. -/
def AccessType.le (a b : AccessType) : Bool := a.rank ≤ b.rank

/-- Modelled from the spec (§3): one ACL rule
`(user, repository, minimum_access)`; `"*"` is the wildcard user or
repository. -/
structure AclRule where
  user : String
  repo : String
  access : AccessType
deriving DecidableEq, Repr

/-- Modelled from the spec (§3): the process-wide policy flags. -/
structure GlobalPolicy where
  auth_required : Bool
  append_only : Bool
  private_repo : Bool
deriving DecidableEq, Repr

/-- The access-policy engine state: global flags plus the in-memory rule
table, read-only for the process lifetime (spec §3). -/
structure AclChecker where
  policy : GlobalPolicy
  rules : List AclRule
deriving Repr

/-- First rule in the table for this exact `(user, repo)` pair. -/
def lookupRule (rules : List AclRule) (u r : String) : Option AccessType :=
  (rules.find? (fun rule => rule.user == u && rule.repo == r)).map (fun rule => rule.access)

/-- First path segment of a repository path (the "owning user" convention,
spec §4.2 step 2). -/
def firstSegOf (p : String) : String :=
  String.mk (p.data.takeWhile (fun c => c != '/'))

/-- Modelled from the spec (§4.2 step 2): resolve the effective minimum
access level for `(user, repo)`: exact rule, then wildcard-user rule, then
wildcard-repo rule, then the policy default (`none` meaning no access at
all under `private_repo` for a non-owning user). -/
def resolveAccess (a : AclChecker) (user : Option String) (repo : String) :
    Option AccessType :=
  match user.bind (fun u => lookupRule a.rules u repo) with
  | some l => some l
  | none =>
    match lookupRule a.rules "*" repo with
    | some l => some l
    | none =>
      match user.bind (fun u => lookupRule a.rules u "*") with
      | some l => some l
      | none =>
        if a.policy.private_repo then
          if user == some (firstSegOf repo) then some .Modify else none
        else some .Read

/-- Modelled from the spec (§4.2 step 3): cap the resolved level at
`Append` when `append_only` is set — except for a repository-root reference
(empty `tpe`), whose create/delete decision uses the uncapped resolution. -/
def effectiveAccess (a : AclChecker) (user : Option String) (tpe repo : String) :
    Option AccessType :=
  match resolveAccess a user repo with
  | none => none
  | some l =>
    if a.policy.append_only && tpe != "" && l == AccessType.Modify then
      some .Append
    else some l

/-- Modelled from the spec (§4.2): `check_auth_and_acl` from
`src/handlers/access_check.rs` (missing from the source tree).  Step 1:
missing user under required authentication is `Unauthenticated`; steps 2–4:
grant iff the requested level is at most the effective resolved level,
otherwise `Denied`. -/
def check_auth_and_acl (a : AclChecker) (user : Option String) (tpe : String)
    (path : String) (append : AccessType) : Except ErrorKind Unit :=
  if a.policy.auth_required && user.isNone then .error .Unauthenticated
  else
    match effectiveAccess a user tpe path with
    | none => .error .Denied
    | some l => if append.le l then .ok () else .error .Denied

/-! ## Storage engine

Modelled from the spec: `src/storage.rs` is not in the source tree.  The
spec (§4.4) fixes `create_repository_layout` (per-type `create_dir`,
idempotent, pre-existing directories are not an error, fails only on an
underlying I/O error) and `remove_repository` (recursive delete, fails if
the root does not exist or deletion is only partial).  The filesystem is
modelled as the set of `(repository path, object type)` directories, and
underlying I/O failures by oracles carried in the `Storage` value. -/

/-- The filesystem state visible to the handlers: which
`(repository path, object type)` directories exist. -/
structure FsState where
  dirs : List (String × String)
deriving DecidableEq, Repr

/-- Insert a directory if absent (mkdir on an existing directory is not an
error and changes nothing, spec §4.4). -/
def insertDir (d : String × String) (l : List (String × String)) :
    List (String × String) :=
  if d ∈ l then l else l ++ [d]

/-- Modelled from the spec (§4.4): the storage backend, with oracles
deciding where the underlying filesystem I/O fails. -/
structure Storage where
  ioFailCreate : String → String → Bool
  ioFailRemove : String → Bool

/-- Does any directory of this repository exist? -/
def repoExists (fs : FsState) (p : String) : Bool :=
  fs.dirs.any (fun d => d.1 == p)

/-- Modelled from the spec (§4.4): `create_dir` — idempotent directory
creation for one object type; fails (with a message naming the target) only
on an underlying I/O error. -/
def Storage.create_dir (st : Storage) (fs : FsState) (p t : String) :
    Except String FsState :=
  if st.ioFailCreate p t then .error (p ++ "/" ++ t)
  else .ok { dirs := insertDir (p, t) fs.dirs }

/-- Modelled from the spec (§4.4): `remove_repository` — recursively
deletes the repository root; fails if the root does not exist or the
underlying I/O fails (partial deletion). -/
def Storage.remove_repository (st : Storage) (fs : FsState) (p : String) :
    Except String FsState :=
  if st.ioFailRemove p || !repoExists fs p then .error p
  else .ok { dirs := fs.dirs.filter (fun d => d.1 != p) }

/-- The `for tpe_i in TYPES.iter()` loop body of `create_repository`
(source lines 43–47): thread the filesystem through `create_dir` for each
object type, stopping at the first failure and reporting its message. -/
def createDirs (st : Storage) (p : String) :
    List String → FsState → FsState × Option String
  | [], fs => (fs, none)
  | t :: ts, fs =>
    match st.create_dir fs p t with
    | .error e => (fs, some e)
    | .ok fs2 => createDirs st p ts fs2

/-- The filesystem after successfully creating the directories of the given
object types in order. -/
def insertAll (p : String) : List String → FsState → FsState
  | [], fs => fs
  | t :: ts, fs => insertAll p ts { dirs := insertDir (p, t) fs.dirs }

/-! ## Request handlers

Embedded from `src/handlers/repository.rs`.  A handler outcome is an HTTP
status (success), an `ErrorKind` (mapped to a status by `statusOf`), or a
failed `assert_eq!` (a Rust panic), paired with the resulting filesystem
state. -/

/-- The `Create` query-parameter struct of the source (lines 15–19);
`serde(default)` makes an absent `create` parameter `false`. -/
structure Create where
  create : Bool
deriving DecidableEq, Repr

/-- An absent query string deserializes to the default, `create = false`. -/
def Create.missing : Create := { create := false }

/-- Handler outcome: `ok` with an HTTP status code, an error kind, or a
failed `assert_eq!`. -/
inductive HStatus where
  | ok : Nat → HStatus
  | err : ErrorKind → HStatus
  | assertFailed : HStatus
deriving DecidableEq, Repr

/-- Embedded from `create_repository` (source lines 22–59): decompose the
raw path, assert it is a repository-root path with empty `tpe`, check
authentication and ACL at level `Append` (the source's choice at line 38,
despite the spec's `Modify`), then — only when `create=true` — create one
directory per object type in `TYPES`, failing with
`CreatingDirectoryFailed` on the first error. -/
def create_repository (a : AclChecker) (st : Storage) (user : Option String)
    (path_string : String) (params : Create) (fs : FsState) : HStatus × FsState :=
  match decompose_path path_string with
  | .error e => (.err e, fs)
  | .ok archive_path =>
    if archive_path.path_type = ArchivePathEnum.Repo then
      if archive_path.tpe = "" then
        match check_auth_and_acl a user archive_path.tpe archive_path.path .Append with
        | .error e => (.err e, fs)
        | .ok _ =>
          match params.create with
          | true =>
            match createDirs st archive_path.path TYPES fs with
            | (fs2, some e) => (.err (.CreatingDirectoryFailed e), fs2)
            | (fs2, none) => (.ok 200, fs2)
          | false => (.ok 200, fs)
      else (.assertFailed, fs)
    else (.assertFailed, fs)

/-- Embedded from `delete_repository` (source lines 64–90): decompose the
raw path, assert it is a repository-root path with empty `tpe`, check
authentication and ACL at level `Modify` (source line 79), then remove the
repository tree, mapping any storage error to `RemovingRepositoryFailed`
naming the repository path. -/
def delete_repository (a : AclChecker) (st : Storage) (user : Option String)
    (path_string : String) (fs : FsState) : HStatus × FsState :=
  match decompose_path path_string with
  | .error e => (.err e, fs)
  | .ok archive_path =>
    if archive_path.path_type = ArchivePathEnum.Repo then
      if archive_path.tpe = "" then
        match check_auth_and_acl a user "" archive_path.path .Modify with
        | .error e => (.err e, fs)
        | .ok _ =>
          match st.remove_repository fs archive_path.path with
          | .error _ => (.err (.RemovingRepositoryFailed archive_path.path), fs)
          | .ok fs2 => (.ok 200, fs2)
      else (.assertFailed, fs)
    else (.assertFailed, fs)

/-- A storage backend whose underlying filesystem never fails. -/
def stOk : Storage := { ioFailCreate := fun _ _ => false, ioFailRemove := fun _ => false }

/-- A storage backend whose filesystem fails exactly on `keys`
subdirectory creation. -/
def stFailKeys : Storage :=
  { ioFailCreate := fun _ t => t == "keys", ioFailRemove := fun _ => false }

/-- Test policy: user `alice` holds `Modify` on `repo1` (spec §8,
end-to-end scenario B). -/
def aclAlice : AclChecker :=
  { policy := { auth_required := true, append_only := false, private_repo := false },
    rules := [{ user := "alice", repo := "repo1", access := .Modify }] }

/-- Test policy: user `alice` holds only `Append` on `repo1`. -/
def aclAppendAlice : AclChecker :=
  { policy := { auth_required := true, append_only := false, private_repo := false },
    rules := [{ user := "alice", repo := "repo1", access := .Append }] }

/-- Test policy: no rules at all and `private_repositories = true`
(spec §8, end-to-end scenario C). -/
def aclPrivate : AclChecker :=
  { policy := { auth_required := true, append_only := false, private_repo := true },
    rules := [] }

/-- The directory set of a freshly created `repo1` layout. -/
def fsRepo1 : FsState :=
  { dirs := [("repo1", "config"), ("repo1", "data"), ("repo1", "keys"),
             ("repo1", "locks"), ("repo1", "snapshots"), ("repo1", "index")] }

/-! ## Sanity checks on concrete inputs -/

example : decompose_path "/repo1" =
    .ok { path_type := .Repo, path := "repo1", tpe := "", id := none } := rfl

example : decompose_path "/a/b" =
    .ok { path_type := .Repo, path := "a/b", tpe := "", id := none } := rfl

example : decompose_path "/repo1/data/" =
    .ok { path_type := .Typ, path := "repo1", tpe := "data", id := none } := rfl

example : decompose_path "/repo1/data/0a1b" =
    .ok { path_type := .File, path := "repo1", tpe := "data", id := some "0a1b" } := rfl

example : decompose_path "/repo1/../x" = .error (.InvalidPath "/repo1/../x") := rfl

example : decompose_path "/repo1/config/0a1b" =
    .error (.InvalidPath "/repo1/config/0a1b") := rfl

example :
    create_repository aclAlice stOk (some "alice") "/repo1" { create := true } { dirs := [] } =
    (.ok 200, fsRepo1) := rfl

example :
    delete_repository aclAlice stOk (some "alice") "/repo1" { dirs := [("repo1", "config")] } =
    (.ok 200, { dirs := [] }) := rfl

example :
    create_repository aclPrivate stOk (some "bob") "/repo_not_allowed" { create := true }
      { dirs := [] } =
    (.err .Denied, { dirs := [] }) := rfl

/-! ## Path-model helper lemmas -/

/-- Inversion of `decompose_core` on a `Repo`-kind success: the object type
is empty and there is no id. -/
theorem decompose_core_ok_repo (segs : List String) (raw : String) (ap : ArchivePath)
    (h : decompose_core segs raw = Except.ok ap)
    (hk : ap.path_type = ArchivePathEnum.Repo) :
    ap.tpe = "" ∧ ap.id = none := by
  unfold decompose_core at h
  split at h
  · simp at h
  split at h
  · simp at h
  split at h
  · injection h with h'
    subst h'
    simp at hk
  split at h
  · split at h
    · simp at h
    split at h
    · injection h with h'
      subst h'
      simp at hk
    · simp at h
  · injection h with h'
    subst h'
    exact ⟨rfl, rfl⟩

/-- Inversion of `decompose_path` on a `Repo`-kind success. -/
theorem decompose_repo_inv {s : String} {ap : ArchivePath}
    (h : decompose_path s = Except.ok ap)
    (hk : ap.path_type = ArchivePathEnum.Repo) :
    ap.tpe = "" ∧ ap.id = none :=
  decompose_core_ok_repo (pathSegments s) s ap h hk

/-- Every `decompose_core` failure is `InvalidPath` on the raw input. -/
theorem decompose_core_error (segs : List String) (raw : String) (e : ErrorKind)
    (h : decompose_core segs raw = Except.error e) :
    e = ErrorKind.InvalidPath raw := by
  unfold decompose_core at h
  split at h
  · injection h with h'
    exact h'.symm
  split at h
  · injection h with h'
    exact h'.symm
  split at h
  · simp at h
  split at h
  · split at h
    · injection h with h'
      exact h'.symm
    split at h
    · simp at h
    · injection h with h'
      exact h'.symm
  · simp at h

/-- Every `decompose_path` failure is `InvalidPath` on the raw input. -/
theorem decompose_error_inv {s : String} {e : ErrorKind}
    (h : decompose_path s = Except.error e) : e = ErrorKind.InvalidPath s :=
  decompose_core_error (pathSegments s) s e h

/-! ## Storage-loop helper lemmas -/

/-- Inserting a directory makes it present. -/
theorem insertDir_self_mem (d : String × String) (l : List (String × String)) :
    d ∈ insertDir d l := by
  unfold insertDir
  split
  · assumption
  · exact List.mem_append_right l (List.mem_singleton.mpr rfl)

/-- Inserting preserves all existing directories. -/
theorem mem_insertDir_of_mem {x : String × String} {l : List (String × String)}
    (d : String × String) (h : x ∈ l) : x ∈ insertDir d l := by
  unfold insertDir
  split
  · exact h
  · exact List.mem_append_left _ h

/-- Inserting a directory already present changes nothing. -/
theorem insertDir_of_mem {d : String × String} {l : List (String × String)}
    (h : d ∈ l) : insertDir d l = l := by
  unfold insertDir
  exact if_pos h

/-- `insertAll` preserves all existing directories. -/
theorem mem_insertAll_of_mem (p : String) (ts : List String) {x : String × String}
    {fs : FsState} (h : x ∈ fs.dirs) : x ∈ (insertAll p ts fs).dirs := by
  induction ts generalizing fs with
  | nil => exact h
  | cons t ts ih => exact ih (mem_insertDir_of_mem (p, t) h)

/-- After `insertAll`, each inserted directory is present. -/
theorem insertAll_mem (p : String) {t : String} {ts : List String} (fs : FsState)
    (h : t ∈ ts) : (p, t) ∈ (insertAll p ts fs).dirs := by
  induction ts generalizing fs with
  | nil => cases h
  | cons t2 ts ih =>
    rcases List.mem_cons.mp h with h1 | h2
    · subst h1
      exact mem_insertAll_of_mem p ts (insertDir_self_mem (p, t) fs.dirs)
    · exact ih _ h2

/-- `insertAll` over directories that all already exist changes nothing. -/
theorem insertAll_of_all_mem (p : String) {ts : List String} {fs : FsState}
    (h : ∀ t ∈ ts, (p, t) ∈ fs.dirs) : insertAll p ts fs = fs := by
  induction ts with
  | nil => rfl
  | cons t ts ih =>
    unfold insertAll
    rw [insertDir_of_mem (h t (List.mem_cons_self t ts))]
    exact ih (fun t2 h2 => h t2 (List.mem_cons_of_mem t h2))

/-- When no underlying I/O failure occurs, the creation loop succeeds and
produces exactly the `insertAll` directory set. -/
theorem createDirs_ok (st : Storage) (p : String) {ts : List String} (fs : FsState)
    (h : ∀ t ∈ ts, st.ioFailCreate p t = false) :
    createDirs st p ts fs = (insertAll p ts fs, none) := by
  induction ts generalizing fs with
  | nil => rfl
  | cons t ts ih =>
    unfold createDirs Storage.create_dir
    rw [h t (List.mem_cons_self t ts)]
    simp only [Bool.false_eq_true, if_false]
    exact ih _ (fun t2 h2 => h t2 (List.mem_cons_of_mem t h2))

/-- Inversion of a successful creation loop: no underlying I/O failure
occurred on any listed type, and the result is the `insertAll` set. -/
theorem createDirs_none_inv (st : Storage) (p : String) {ts : List String}
    {fs fs2 : FsState} (h : createDirs st p ts fs = (fs2, none)) :
    (∀ t ∈ ts, st.ioFailCreate p t = false) ∧ fs2 = insertAll p ts fs := by
  induction ts generalizing fs with
  | nil =>
    unfold createDirs at h
    injection h with h1 _
    exact ⟨fun t h2 => absurd h2 (List.not_mem_nil t), h1.symm⟩
  | cons t ts ih =>
    unfold createDirs Storage.create_dir at h
    cases hc : st.ioFailCreate p t with
    | true =>
      rw [hc] at h
      simp at h
    | false =>
      rw [hc] at h
      simp only [Bool.false_eq_true, if_false] at h
      obtain ⟨hrec, hst⟩ := ih h
      constructor
      · intro t2 h2
        rcases List.mem_cons.mp h2 with h3 | h3
        · subst h3
          exact hc
        · exact hrec t2 h3
      · show fs2 = insertAll p ts { dirs := insertDir (p, t) fs.dirs }
        exact hst

/-- The creation loop stops at the first failing object type: every earlier
type's directory is created, the error names the failing target, and no
later type is attempted. -/
theorem createDirs_first_fail (st : Storage) (p : String) {ts1 : List String}
    (t : String) (ts2 : List String) (fs : FsState)
    (h1 : ∀ t' ∈ ts1, st.ioFailCreate p t' = false)
    (ht : st.ioFailCreate p t = true) :
    createDirs st p (ts1 ++ t :: ts2) fs = (insertAll p ts1 fs, some (p ++ "/" ++ t)) := by
  induction ts1 generalizing fs with
  | nil =>
    rw [List.nil_append]
    unfold createDirs Storage.create_dir
    rw [ht]
    rfl
  | cons t1 ts1 ih =>
    rw [List.cons_append]
    unfold createDirs Storage.create_dir
    rw [h1 t1 (List.mem_cons_self t1 _)]
    simp only [Bool.false_eq_true, if_false]
    exact ih _ (fun t2 h2 => h1 t2 (List.mem_cons_of_mem t1 h2))

/-! ## Handler reduction lemmas -/

/-- On a `Repo`-kind path both `assert_eq!` guards of `create_repository`
pass and the handler reduces to authorization followed by the creation
loop. -/
theorem create_repository_reduce {a : AclChecker} {st : Storage} {user : Option String}
    {raw : String} {params : Create} {fs : FsState} {ap : ArchivePath}
    (hdec : decompose_path raw = Except.ok ap)
    (hk : ap.path_type = ArchivePathEnum.Repo) :
    create_repository a st user raw params fs =
      (match check_auth_and_acl a user ap.tpe ap.path AccessType.Append with
       | .error e => (HStatus.err e, fs)
       | .ok _ =>
         match params.create with
         | true =>
           match createDirs st ap.path TYPES fs with
           | (fs2, some e) => (HStatus.err (ErrorKind.CreatingDirectoryFailed e), fs2)
           | (fs2, none) => (HStatus.ok 200, fs2)
         | false => (HStatus.ok 200, fs)) := by
  obtain ⟨htpe, _⟩ := decompose_repo_inv hdec hk
  unfold create_repository
  rw [hdec]
  simp only [hk, htpe, eq_self_iff_true, if_true]

/-- On a `Repo`-kind path both `assert_eq!` guards of `delete_repository`
pass and the handler reduces to authorization followed by repository
removal. -/
theorem delete_repository_reduce {a : AclChecker} {st : Storage} {user : Option String}
    {raw : String} {fs : FsState} {ap : ArchivePath}
    (hdec : decompose_path raw = Except.ok ap)
    (hk : ap.path_type = ArchivePathEnum.Repo) :
    delete_repository a st user raw fs =
      (match check_auth_and_acl a user "" ap.path AccessType.Modify with
       | .error e => (HStatus.err e, fs)
       | .ok _ =>
         match st.remove_repository fs ap.path with
         | .error _ => (HStatus.err (ErrorKind.RemovingRepositoryFailed ap.path), fs)
         | .ok fs2 => (HStatus.ok 200, fs2)) := by
  obtain ⟨htpe, _⟩ := decompose_repo_inv hdec hk
  unfold delete_repository
  rw [hdec]
  simp only [hk, htpe, eq_self_iff_true, if_true]

/-- On a `Repo`-kind path `create_repository` never hits a failed
assertion. -/
theorem create_no_assert {a : AclChecker} {st : Storage} {user : Option String}
    {raw : String} {params : Create} {fs : FsState} {ap : ArchivePath}
    (hdec : decompose_path raw = Except.ok ap)
    (hk : ap.path_type = ArchivePathEnum.Repo) :
    (create_repository a st user raw params fs).1 ≠ HStatus.assertFailed := by
  rw [create_repository_reduce hdec hk]
  cases hch : check_auth_and_acl a user ap.tpe ap.path AccessType.Append with
  | error e => simp
  | ok u =>
    cases hc : params.create with
    | false => simp
    | true =>
      cases hcd : createDirs st ap.path TYPES fs with
      | mk fs2 r =>
        cases r with
        | none => simp
        | some e => simp

/-- On a `Repo`-kind path `delete_repository` never hits a failed
assertion. -/
theorem delete_no_assert {a : AclChecker} {st : Storage} {user : Option String}
    {raw : String} {fs : FsState} {ap : ArchivePath}
    (hdec : decompose_path raw = Except.ok ap)
    (hk : ap.path_type = ArchivePathEnum.Repo) :
    (delete_repository a st user raw fs).1 ≠ HStatus.assertFailed := by
  rw [delete_repository_reduce hdec hk]
  cases hch : check_auth_and_acl a user "" ap.path AccessType.Modify with
  | error e => simp
  | ok u =>
    cases hrm : st.remove_repository fs ap.path with
    | error e => simp
    | ok fs2 => simp

/-! ## Claim theorems -/

/-- C1: the claim fails on the code.  `create_repository` authorizes at
access level `Append` (source line 38, under a `FIXME` asking whether
`Modify` should be required), not at `Modify` as the claim and the spec's
endpoint table state.  With an ACL granting `alice` only `Append` on
`repo1` — so that her effective resolved level is `Append` but not `Modify`
(a `Modify` request is denied, first conjunct) — the create request is
nevertheless granted and the repository layout is created with HTTP 200
(third conjunct), where the claim says she must be denied. -/
theorem claim_C1_create_authorizes_append_not_modify :
    check_auth_and_acl aclAppendAlice (some "alice") "" "repo1" AccessType.Modify =
      Except.error ErrorKind.Denied ∧
    check_auth_and_acl aclAppendAlice (some "alice") "" "repo1" AccessType.Append =
      Except.ok () ∧
    create_repository aclAppendAlice stOk (some "alice") "/repo1" { create := true }
      { dirs := [] } = (HStatus.ok 200, fsRepo1) :=
  ⟨rfl, rfl, rfl⟩

/-- C2: when the authorization check denies a `create_repository` request
(for instance a user with no ACL rule for the repository under
`private_repositories = true`), the handler returns the `Denied` error —
mapped to HTTP 403 — and the filesystem state is returned unchanged: no
directory for any object type is created. -/
theorem claim_C2_create_denied_no_storage
    (a : AclChecker) (st : Storage) (user : Option String) (raw : String)
    (params : Create) (fs : FsState) (ap : ArchivePath)
    (hdec : decompose_path raw = Except.ok ap)
    (hk : ap.path_type = ArchivePathEnum.Repo)
    (hden : check_auth_and_acl a user ap.tpe ap.path AccessType.Append =
      Except.error ErrorKind.Denied) :
    create_repository a st user raw params fs = (HStatus.err ErrorKind.Denied, fs) ∧
    statusOf ErrorKind.Denied = 403 := by
  rw [create_repository_reduce hdec hk, hden]
  exact ⟨rfl, rfl⟩

/-- C2 witness: end-to-end scenario C — user `bob`, no ACL rule for
`repo_not_allowed`, private repositories: 403 and no directory created. -/
theorem claim_C2_witness :
    create_repository aclPrivate stOk (some "bob") "/repo_not_allowed" { create := true }
      { dirs := [] } = (HStatus.err ErrorKind.Denied, { dirs := [] }) ∧
    statusOf ErrorKind.Denied = 403 :=
  claim_C2_create_denied_no_storage aclPrivate stOk (some "bob") "/repo_not_allowed"
    { create := true } { dirs := [] }
    { path_type := .Repo, path := "repo_not_allowed", tpe := "", id := none } rfl rfl rfl

/-- C3: `delete_repository` authorizes at access level `Modify` (source
line 79 — the `Modify` literal is visible in the embedded definition)
before any storage call; when that check fails with any error, the handler
returns that error and the filesystem — in particular the repository
tree — is unchanged, so `remove_repository` was never invoked. -/
theorem claim_C3_delete_modify_gate
    (a : AclChecker) (st : Storage) (user : Option String) (raw : String)
    (fs : FsState) (ap : ArchivePath) (e : ErrorKind)
    (hdec : decompose_path raw = Except.ok ap)
    (hk : ap.path_type = ArchivePathEnum.Repo)
    (hfail : check_auth_and_acl a user "" ap.path AccessType.Modify = Except.error e) :
    delete_repository a st user raw fs = (HStatus.err e, fs) := by
  rw [delete_repository_reduce hdec hk, hfail]

/-- C3 witness: `alice` holding only `Append` on `repo1` is denied the
delete and the directory tree survives. -/
theorem claim_C3_witness :
    delete_repository aclAppendAlice stOk (some "alice") "/repo1" fsRepo1 =
      (HStatus.err ErrorKind.Denied, fsRepo1) :=
  claim_C3_delete_modify_gate aclAppendAlice stOk (some "alice") "/repo1" fsRepo1
    { path_type := .Repo, path := "repo1", tpe := "", id := none } ErrorKind.Denied
    rfl rfl rfl

/-- C4: whenever `decompose_path` succeeds with a `Repo`-kind
`ArchivePath`, the object type is empty and there is no id, so the
`assert_eq!` guards on `path_type` and `tpe` in `create_repository` and
`delete_repository` never fail on such a path. -/
theorem claim_C4_repo_kind_invariant
    (s : String) (ap : ArchivePath) (a : AclChecker) (st : Storage)
    (user : Option String) (params : Create) (fs : FsState)
    (hdec : decompose_path s = Except.ok ap)
    (hk : ap.path_type = ArchivePathEnum.Repo) :
    ap.tpe = "" ∧ ap.id = none ∧
    (create_repository a st user s params fs).1 ≠ HStatus.assertFailed ∧
    (delete_repository a st user s fs).1 ≠ HStatus.assertFailed :=
  ⟨(decompose_repo_inv hdec hk).1, (decompose_repo_inv hdec hk).2,
   create_no_assert hdec hk, delete_no_assert hdec hk⟩

/-- C4 witness: the concrete repository-root path `/repo1`. -/
theorem claim_C4_witness :
    ({ path_type := .Repo, path := "repo1", tpe := "", id := none } : ArchivePath).tpe = "" ∧
    ({ path_type := .Repo, path := "repo1", tpe := "", id := none } : ArchivePath).id = none ∧
    (create_repository aclAlice stOk (some "alice") "/repo1" { create := true }
      { dirs := [] }).1 ≠ HStatus.assertFailed ∧
    (delete_repository aclAlice stOk (some "alice") "/repo1" { dirs := [] }).1 ≠
      HStatus.assertFailed :=
  claim_C4_repo_kind_invariant "/repo1"
    { path_type := .Repo, path := "repo1", tpe := "", id := none }
    aclAlice stOk (some "alice") { create := true } { dirs := [] } rfl rfl

/-- C5: when path decomposition fails, both handlers return its
`InvalidPath` error immediately — the filesystem state is unchanged (no
authorization, no storage call) — and the error maps to client-error
status 400. -/
theorem claim_C5_invalid_path_short_circuit
    (a : AclChecker) (st : Storage) (user : Option String) (raw : String)
    (params : Create) (fs : FsState) (e : ErrorKind)
    (hdec : decompose_path raw = Except.error e) :
    create_repository a st user raw params fs = (HStatus.err e, fs) ∧
    delete_repository a st user raw fs = (HStatus.err e, fs) ∧
    statusOf e = 400 := by
  refine ⟨?_, ?_, ?_⟩
  · unfold create_repository
    rw [hdec]
  · unfold delete_repository
    rw [hdec]
  · rw [decompose_error_inv hdec]
    rfl

/-- C5 witness: the traversal-attempting raw path `/a/../b`. -/
theorem claim_C5_witness :
    create_repository aclAlice stOk (some "alice") "/a/../b" { create := true }
      { dirs := [] } = (HStatus.err (ErrorKind.InvalidPath "/a/../b"), { dirs := [] }) ∧
    delete_repository aclAlice stOk (some "alice") "/a/../b" { dirs := [] } =
      (HStatus.err (ErrorKind.InvalidPath "/a/../b"), { dirs := [] }) ∧
    statusOf (ErrorKind.InvalidPath "/a/../b") = 400 :=
  claim_C5_invalid_path_short_circuit aclAlice stOk (some "alice") "/a/../b"
    { create := true } { dirs := [] } (ErrorKind.InvalidPath "/a/../b") rfl

/-- C6: an authorized `create=true` request on which no underlying I/O
failure occurs invokes `create_dir` exactly once for each object type of
the fixed `TYPES` vocabulary — the resulting directory set is `insertAll`
of the six types in order — and returns HTTP 200. -/
theorem claim_C6_create_success
    (a : AclChecker) (st : Storage) (user : Option String) (raw : String)
    (fs : FsState) (ap : ArchivePath)
    (hdec : decompose_path raw = Except.ok ap)
    (hk : ap.path_type = ArchivePathEnum.Repo)
    (hok : check_auth_and_acl a user ap.tpe ap.path AccessType.Append = Except.ok ())
    (hio : ∀ t ∈ TYPES, st.ioFailCreate ap.path t = false) :
    create_repository a st user raw { create := true } fs =
      (HStatus.ok 200, insertAll ap.path TYPES fs) := by
  rw [create_repository_reduce hdec hk, hok, createDirs_ok st ap.path fs hio]

/-- C6 witness: scenario B — authorized `alice` creates `repo1`; one
directory per object type, status 200. -/
theorem claim_C6_witness :
    create_repository aclAlice stOk (some "alice") "/repo1" { create := true }
      { dirs := [] } = (HStatus.ok 200, insertAll "repo1" TYPES { dirs := [] }) :=
  claim_C6_create_success aclAlice stOk (some "alice") "/repo1" { dirs := [] }
    { path_type := .Repo, path := "repo1", tpe := "", id := none } rfl rfl rfl
    (fun _ _ => rfl)

/-- C7: when a `create_dir` call fails during repository creation, the
handler returns `CreatingDirectoryFailed` for the first failing object
type, attempts no further `create_dir` call, and the directories already
created for the earlier object types are left in place (no rollback). -/
theorem claim_C7_create_first_failure
    (a : AclChecker) (st : Storage) (user : Option String) (raw : String)
    (fs : FsState) (ap : ArchivePath) (ts1 : List String) (t : String) (ts2 : List String)
    (hdec : decompose_path raw = Except.ok ap)
    (hk : ap.path_type = ArchivePathEnum.Repo)
    (hok : check_auth_and_acl a user ap.tpe ap.path AccessType.Append = Except.ok ())
    (hsplit : TYPES = ts1 ++ t :: ts2)
    (h1 : ∀ t' ∈ ts1, st.ioFailCreate ap.path t' = false)
    (ht : st.ioFailCreate ap.path t = true) :
    create_repository a st user raw { create := true } fs =
      (HStatus.err (ErrorKind.CreatingDirectoryFailed (ap.path ++ "/" ++ t)),
       insertAll ap.path ts1 fs) := by
  rw [create_repository_reduce hdec hk, hok, hsplit,
    createDirs_first_fail st ap.path t ts2 fs h1 ht]

/-- C7 witness: `keys` creation fails; `config` and `data` directories are
already in place and remain, later types are never attempted. -/
theorem claim_C7_witness :
    create_repository aclAlice stFailKeys (some "alice") "/repo1" { create := true }
      { dirs := [] } =
      (HStatus.err (ErrorKind.CreatingDirectoryFailed ("repo1" ++ "/" ++ "keys")),
       insertAll "repo1" ["config", "data"] { dirs := [] }) :=
  claim_C7_create_first_failure aclAlice stFailKeys (some "alice") "/repo1" { dirs := [] }
    { path_type := .Repo, path := "repo1", tpe := "", id := none }
    ["config", "data"] "keys" ["locks", "snapshots", "index"] rfl rfl rfl rfl
    (by decide) rfl

/-- C8: on an authorized delete, the handler's outcome follows
`remove_repository` exactly: any storage error (in particular a
nonexistent repository root, as the witness shows, or a partial deletion)
yields the `RemovingRepositoryFailed` error naming the repository path,
and success yields HTTP 200 with the tree removed. -/
theorem claim_C8_delete_outcome
    (a : AclChecker) (st : Storage) (user : Option String) (raw : String)
    (fs : FsState) (ap : ArchivePath)
    (hdec : decompose_path raw = Except.ok ap)
    (hk : ap.path_type = ArchivePathEnum.Repo)
    (hok : check_auth_and_acl a user "" ap.path AccessType.Modify = Except.ok ()) :
    delete_repository a st user raw fs =
      (match st.remove_repository fs ap.path with
       | .error _ => (HStatus.err (ErrorKind.RemovingRepositoryFailed ap.path), fs)
       | .ok fs2 => (HStatus.ok 200, fs2)) := by
  rw [delete_repository_reduce hdec hk, hok]

/-- C8 witness: deleting `repo1` when its root does not exist fails with
`RemovingRepositoryFailed "repo1"`. -/
theorem claim_C8_witness :
    delete_repository aclAlice stOk (some "alice") "/repo1" { dirs := [] } =
      (HStatus.err (ErrorKind.RemovingRepositoryFailed "repo1"), { dirs := [] }) :=
  claim_C8_delete_outcome aclAlice stOk (some "alice") "/repo1" { dirs := [] }
    { path_type := .Repo, path := "repo1", tpe := "", id := none } rfl rfl rfl

/-- C9: repository-layout creation is idempotent: if an authorized
`create=true` request succeeded from state `fs` producing directory set
`fs1`, running the same request again from `fs1` again succeeds with HTTP
200 and leaves the directory set exactly `fs1`. -/
theorem claim_C9_create_idempotent
    (a : AclChecker) (st : Storage) (user : Option String) (raw : String)
    (fs fs1 : FsState) (ap : ArchivePath)
    (hdec : decompose_path raw = Except.ok ap)
    (hk : ap.path_type = ArchivePathEnum.Repo)
    (h1 : create_repository a st user raw { create := true } fs = (HStatus.ok 200, fs1)) :
    create_repository a st user raw { create := true } fs1 = (HStatus.ok 200, fs1) := by
  rw [create_repository_reduce hdec hk] at h1 ⊢
  cases hch : check_auth_and_acl a user ap.tpe ap.path AccessType.Append with
  | error e =>
    rw [hch] at h1
    simp at h1
  | ok u =>
    cases u
    rw [hch] at h1
    cases hcd : createDirs st ap.path TYPES fs with
    | mk fs2 r =>
      cases r with
      | some e =>
        rw [hcd] at h1
        simp at h1
      | none =>
        rw [hcd] at h1
        simp only [Prod.mk.injEq] at h1
        obtain ⟨hfail, hfs⟩ := createDirs_none_inv st ap.path hcd
        have hfs1 : fs1 = insertAll ap.path TYPES fs := h1.2 ▸ hfs
        have hmem : ∀ t ∈ TYPES, (ap.path, t) ∈ fs1.dirs := by
          intro t htt
          rw [hfs1]
          exact insertAll_mem ap.path fs htt
        rw [createDirs_ok st ap.path fs1 hfail, insertAll_of_all_mem ap.path hmem]

/-- C9 witness: creating `repo1` from the already-created layout `fsRepo1`
succeeds again and leaves the directory set identical. -/
theorem claim_C9_witness :
    create_repository aclAlice stOk (some "alice") "/repo1" { create := true } fsRepo1 =
      (HStatus.ok 200, fsRepo1) :=
  claim_C9_create_idempotent aclAlice stOk (some "alice") "/repo1" { dirs := [] } fsRepo1
    { path_type := .Repo, path := "repo1", tpe := "", id := none } rfl rfl rfl

/-- C10: a `create_repository` request whose `create` parameter is `false`
— in particular absent, deserialized to the default `false` — returns HTTP
200 after successful decomposition and authorization without invoking any
storage operation: the filesystem state is returned unchanged. -/
theorem claim_C10_create_false_frame
    (a : AclChecker) (st : Storage) (user : Option String) (raw : String)
    (params : Create) (fs : FsState) (ap : ArchivePath)
    (hdec : decompose_path raw = Except.ok ap)
    (hk : ap.path_type = ArchivePathEnum.Repo)
    (hok : check_auth_and_acl a user ap.tpe ap.path AccessType.Append = Except.ok ())
    (hcf : params.create = false) :
    create_repository a st user raw params fs = (HStatus.ok 200, fs) := by
  rw [create_repository_reduce hdec hk, hok, hcf]

/-- C10 witness: an absent `create` parameter (`Create.missing`) on
`/repo1`: 200 and an unchanged (empty) filesystem. -/
theorem claim_C10_witness :
    create_repository aclAlice stOk (some "alice") "/repo1" Create.missing { dirs := [] } =
      (HStatus.ok 200, { dirs := [] }) :=
  claim_C10_create_false_frame aclAlice stOk (some "alice") "/repo1" Create.missing
    { dirs := [] } { path_type := .Repo, path := "repo1", tpe := "", id := none }
    rfl rfl rfl rfl

end RusticServer
